import Mathlib

/-!
# SharedLLM backend — verification of the spec against the code

Shallow embedding of the parts of the Rust backend
(`src/backend/src/llama_cpp/mod.rs`, `src/backend/src/permissions/mod.rs`,
`src/backend/src/api/settings.rs`, `src/backend/src/api/cluster.rs`,
`src/backend/src/db/queries.rs`) that the spec's testable properties are
about: the model-path validator and fit planner, the permission service's
memory allocation over the device/role/allocation store, the settings
allow-list, the cluster start-inference handler, and the llama.cpp process
supervisor's state machine.

Conventions of the embedding:
* Rust `u64`/`u32` become `Nat`, `i64`/`i32` become `Int`.
* The SQLite store becomes an explicit `Db` value (lists of rows) threaded
  through the operations; fallible operations return `Except String`.
* Effects (broadcast events, child-process kills) are recorded in explicit
  lists so that ordering claims can be stated.
* Nondeterministic inputs of the environment (file size from `fs::metadata`,
  fresh UUIDs, clock readings, child-process spawn results and exit
  observations) are passed in as parameters.
* The Rust fit planner computes its two ratios in `f64`.  For every operand
  magnitude the program can see (memory sizes in MB, far below 2^50) the
  double-precision results of `x * 0.90`, `a / b * layers` and `.round()`
  coincide with the exact rational values, so they are modelled exactly over
  `Nat`: `⌊x * 9 / 10⌋` and `⌊(2·layers·num + den) / (2·den)⌋` (round half
  away from zero on nonnegative values).
-/

namespace SharedLLM

/-! ## Unix path semantics used by `validate_model_path`

`std::path::Path` on Unix: `is_absolute` means the path starts with `/`;
`file_name` is the last normal component (empty and `.` components are
dropped, a trailing `..` component yields `None`); `extension` is the part
of the file name after its last `.`, provided the `.` is not the leading
character and the file name is not `..`. -/

/-- Rust `char::to_ascii_lowercase`. -/
def asciiLowerChar (c : Char) : Char :=
  if 'A' ≤ c ∧ c ≤ 'Z' then Char.ofNat (c.toNat + 32) else c

/-- Rust `str::to_ascii_lowercase`, on the character list of the string. -/
def asciiLower (s : List Char) : List Char :=
  s.map asciiLowerChar

/-- Splitting at every occurrence of a one-character separator — the
semantics of splitting a string on `"/"` or `"."`. -/
def splitOnChar (sep : Char) : List Char → List (List Char)
  | [] => [[]]
  | c :: cs =>
    if c = sep then [] :: splitOnChar sep cs
    else
      match splitOnChar sep cs with
      | [] => [[c]]
      | r :: rs => (c :: r) :: rs

/-- Rust `str::starts_with` / the byte-prefix test behind
`path.starts_with(prefix)`. -/
def strStartsWith (s pre : String) : Bool :=
  pre.toList.isPrefixOf s.toList

/-- Rust `Path::is_absolute` on Unix: the path has a root. -/
def pathIsAbsolute (p : String) : Bool :=
  strStartsWith p "/"

/-- The normal components of a Unix path: empty and `.` segments are
dropped by `Path::components`; `..` segments are kept (`ParentDir`). -/
def pathSegments (p : String) : List (List Char) :=
  (splitOnChar '/' p.toList).filter (fun s => (s != []) && (s != ['.']))

/-- Rust `Path::file_name`: the final component, unless it is `..`. -/
def pathFileName (p : String) : Option (List Char) :=
  match (pathSegments p).getLast? with
  | none => none
  | some seg => if seg = ['.', '.'] then none else some seg

/-- Rust `Path::extension` applied to a file name (Rust `split_file_at_dot`):
the text after the last `.`, unless the file name is `..` or its last `.`
is its first character. -/
def fileNameExtension (fn : List Char) : Option (List Char) :=
  if fn = ['.', '.'] then none
  else
    let parts := splitOnChar '.' fn
    match parts with
    | [] => none
    | [_] => none
    | first :: _ :: _ =>
      if first = [] ∧ parts.length = 2 then none
      else parts.getLast?

/-- Rust `Path::extension` of a whole path. -/
def pathExtension (p : String) : Option (List Char) :=
  (pathFileName p).bind fileNameExtension

/-- Rust `path.contains("..")` — substring test on the raw string. -/
def containsDotDot (p : String) : Bool :=
  decide (List.IsInfix ['.', '.'] p.toList)

/-- The protected system-directory prefixes of `validate_model_path`,
in source order. -/
def disallowedPrefixes : List String :=
  ["/etc/", "/proc/", "/sys/", "/dev/",
   "/boot/", "/var/run/", "/run/", "/bin/", "/sbin/",
   "/usr/bin/", "/usr/sbin/"]

/-- Rust `validate_model_path` (llama_cpp/mod.rs, lines 86–125): reject empty,
relative, `..`-containing, non-`.gguf` (case-insensitive extension), and
protected-prefix paths, in that order. -/
def validate_model_path (path : String) : Except String Unit :=
  if path = "" then .error "Model path cannot be empty"
  else if ¬ pathIsAbsolute path then .error "Model path must be an absolute path"
  else if containsDotDot path then .error "Model path must not contain '..'"
  else if asciiLower ((pathExtension path).getD []) ≠ ['g', 'g', 'u', 'f'] then
    .error "Model path must point to a .gguf file"
  else if disallowedPrefixes.any (fun pre => strStartsWith path pre) then
    .error "Model path is not in an allowed location"
  else .ok ()

/-! ## Fit planner (`LlamaCppManager::analyze_model`, llama_cpp/mod.rs 145–256) -/

/-- Rust `FitStatus` (llama_cpp/mod.rs). -/
inductive FitStatus where
  | fits_locally
  | fits_distributed
  | partial_gpu
  | too_large
deriving DecidableEq, Repr

/-- Rust `ModelAnalysis` (llama_cpp/mod.rs). -/
structure ModelAnalysis where
  model_size_mb : Nat
  estimated_layers : Nat
  local_free_mb : Nat
  cluster_free_mb : Nat
  total_available_mb : Nat
  fit_status : FitStatus
  recommended_n_gpu_layers : Int
  recommended_ctx_size : Nat
  warnings : List String
deriving DecidableEq, Repr

/-- Rust `LlamaCppManager::estimate_layers`: heuristic layer count from the model
file size in MB. -/
def estimate_layers (model_size_mb : Nat) : Nat :=
  if model_size_mb ≤ 2047 then 22
  else if model_size_mb ≤ 5119 then 32
  else if model_size_mb ≤ 9215 then 40
  else if model_size_mb ≤ 20479 then 48
  else if model_size_mb ≤ 40959 then 64
  else 80

/-- Rust `(x as f64 * 0.90) as u64`, exact for the MB magnitudes involved. -/
def usable90 (mb : Nat) : Nat := mb * 9 / 10

/-- Rust `(num as f64 / den as f64 * layers as f64).round() as i32` for
`num ≤ den`: round half away from zero of `layers * num / den`,
exact for the magnitudes involved. -/
def roundLayerShare (layers num den : Nat) : Nat :=
  (2 * layers * num + den) / (2 * den)

/-- The warning pushed in the `too_large` branch of `analyze_model`. -/
def tooLargeWarning (model_size_mb total_available_mb : Nat) : String :=
  let needGb := (model_size_mb + 511) / 1024
  let haveGb := (total_available_mb + 511) / 1024
  s!"Model needs ~{needGb} GB but only {haveGb} GB available across cluster"

/-- The verdict if-chain of `analyze_model` (llama_cpp/mod.rs 190–210)
together with the warnings it pushes. -/
def fit_decision (model_size_mb local_free_mb cluster_free_mb
    total_available_mb : Nat) : FitStatus × List String :=
  if model_size_mb ≤ usable90 local_free_mb then
    (FitStatus.fits_locally, ([] : List String))
  else if model_size_mb ≤ usable90 total_available_mb ∧ cluster_free_mb > 0 then
    (FitStatus.fits_distributed, [])
  else if model_size_mb ≤ total_available_mb then
    if cluster_free_mb = 0 then
      (FitStatus.partial_gpu,
       ["Add cluster devices to offload layers and fit this model"])
    else
      (FitStatus.partial_gpu, ["Model may not fit — very tight on memory"])
  else
    (FitStatus.too_large, [tooLargeWarning model_size_mb total_available_mb])

/-- The `recommended_n_gpu_layers` match of `analyze_model`
(llama_cpp/mod.rs 213–234). -/
def recommended_layers (fit_status : FitStatus)
    (estimated_layers local_free_mb total_available_mb model_size_mb : Nat) :
    Int :=
  match fit_status with
  | .fits_locally => -1
  | .fits_distributed =>
    if total_available_mb > 0 then
      (roundLayerShare estimated_layers local_free_mb total_available_mb : Int)
    else 0
  | .partial_gpu =>
    if model_size_mb > 0 then
      (roundLayerShare estimated_layers
        (min local_free_mb model_size_mb) model_size_mb : Int)
    else 0
  | .too_large => 0

/-- The `recommended_ctx_size` match of `analyze_model`
(llama_cpp/mod.rs 237–243), on the saturated remaining MB. -/
def recommended_ctx (remaining_mb : Nat) : Nat :=
  if remaining_mb ≤ 1023 then 2048
  else if remaining_mb ≤ 2047 then 4096
  else if remaining_mb ≤ 4095 then 8192
  else 16384

/-- Rust `LlamaCppManager::analyze_model` (llama_cpp/mod.rs 163–256).
`fileSizeBytes` stands for the `std::fs::metadata(model_path).map(|m| m.len())`
observation: `none` when the metadata call fails (the code then treats the
size as 0 bytes via `unwrap_or(0)`). -/
def analyze_model (model_path : String) (fileSizeBytes : Option Nat)
    (local_free_mb : Nat) (device_free_mbs : List Nat) :
    Except String ModelAnalysis := do
  let _ ← validate_model_path model_path
  let model_size_mb := (fileSizeBytes.map (fun len => len / (1024 * 1024))).getD 0
  if model_size_mb = 0 then
    throw "Model file not found or is empty"
  else
    let estimated_layers := estimate_layers model_size_mb
    let cluster_free_mb := device_free_mbs.sum
    let total_available_mb := local_free_mb + cluster_free_mb
    let fsw :=
      fit_decision model_size_mb local_free_mb cluster_free_mb total_available_mb
    pure
      { model_size_mb := model_size_mb
        estimated_layers := estimated_layers
        local_free_mb := local_free_mb
        cluster_free_mb := cluster_free_mb
        total_available_mb := total_available_mb
        fit_status := fsw.1
        recommended_n_gpu_layers :=
          recommended_layers fsw.1 estimated_layers local_free_mb
            total_available_mb model_size_mb
        recommended_ctx_size :=
          recommended_ctx (total_available_mb - model_size_mb)
        warnings := fsw.2 }

/-! ## Persistent store (db/models.rs, db/queries.rs)

The SQLite tables become lists of rows; each query of `queries.rs` that the
claims depend on becomes a pure function on a `Db` value.  Row identity is
on the `id` column, as in the SQL `WHERE id = ?` clauses. -/

/-- Rust `Device` row (db/models.rs). -/
structure Device where
  id : String
  name : String
  ip : String
  mac : Option String
  hostname : Option String
  platform : Option String
  role_id : Option String
  status : String
  discovery_method : String
  allocated_memory_mb : Int
  last_seen : Option String
  first_seen : String
  created_at : String
  rpc_port : Int
  rpc_status : String
  memory_total_mb : Int
  memory_free_mb : Int
deriving DecidableEq, Repr

/-- Rust `Role` row (db/models.rs). -/
structure Role where
  id : String
  name : String
  max_memory_mb : Int
  can_pull_models : Bool
  trust_level : Int
  created_at : String
deriving DecidableEq, Repr

/-- Rust `Allocation` row (db/models.rs). -/
structure Allocation where
  id : String
  device_id : String
  memory_mb : Int
  provider : String
  granted_at : String
  revoked_at : Option String
deriving DecidableEq, Repr

/-- Rust `Setting` row (db/models.rs). -/
structure Setting where
  key : String
  value : String
deriving DecidableEq, Repr

/-- The relational store: `devices`, `roles`, `allocations`, `settings`. -/
structure Db where
  devices : List Device
  roles : List Role
  allocations : List Allocation
  settings : List Setting
deriving DecidableEq, Repr

/-- Rust `queries::get_device`: `SELECT * FROM devices WHERE id = ?`. -/
def get_device (db : Db) (id : String) : Option Device :=
  db.devices.find? (fun d => d.id = id)

/-- Rust `queries::get_role`: `SELECT * FROM roles WHERE id = ?`. -/
def get_role (db : Db) (id : String) : Option Role :=
  db.roles.find? (fun r => r.id = id)

/-- Rust `queries::update_device_memory`:
`UPDATE devices SET allocated_memory_mb = ? WHERE id = ?`. -/
def update_device_memory (db : Db) (id : String) (memory_mb : Int) : Db :=
  { db with
    devices := db.devices.map (fun d =>
      if d.id = id then { d with allocated_memory_mb := memory_mb } else d) }

/-- Rust `queries::insert_allocation`: `INSERT INTO allocations ...`
(append-only table). -/
def insert_allocation (db : Db) (a : Allocation) : Db :=
  { db with allocations := db.allocations ++ [a] }

/-- Rust `queries::set_setting`: upsert on the `settings` table. -/
def set_setting (db : Db) (key value : String) : Db :=
  if db.settings.any (fun s => s.key = key) then
    { db with
      settings := db.settings.map (fun s =>
        if s.key = key then { s with value := value } else s) }
  else
    { db with settings := db.settings ++ [⟨key, value⟩] }

/-! ## Broadcast events (ws/mod.rs `WsEvent`) — the variants the modelled
operations emit. -/

inductive WsEvent where
  | DevicePendingApproval (device_id name ip discovery_method : String)
  | DeviceApproved (device_id name ip : String)
  | DeviceDenied (device_id : String)
  | MemoryAllocated (device_id : String) (memory_mb : Int)
  | RpcServerReady (port : Int)
  | RpcServerOffline
  | InferenceStarted (session_id model : String) (devices : List String)
  | InferenceStopped (session_id : String)
deriving DecidableEq, Repr

/-! ## Permission service (`PermissionService::allocate_memory`,
permissions/mod.rs 140–187)

The service holds the pool and the broadcast sender; here an operation maps
(db, emitted-events-so-far) to a result.  An `Except.error` return models
`anyhow::bail!` / `?`: the code bails before any write, so an error leaves
the store and the event stream exactly as they were.  `alloc_id` stands for
the fresh `Uuid::new_v4()` and `now` for `chrono::Utc::now().to_rfc3339()`. -/

/-- The `bail!` message of the role-quota branch (the Rust text wraps the
role name in single quotes; the quotes are elided here). -/
def quotaErrorMsg (memory_mb : Int) (role : Role) : String :=
  let roleName := role.name
  let maxMb := role.max_memory_mb
  s!"Requested {memory_mb} MB exceeds role {roleName} limit of {maxMb} MB"

/-- The allocation row inserted by `allocate_memory`. -/
def allocationRecord (alloc_id device_id : String) (memory_mb : Int)
    (now : String) : Allocation :=
  { id := alloc_id
    device_id := device_id
    memory_mb := memory_mb
    provider := "system_ram"
    granted_at := now
    revoked_at := none }

/-- Rust `PermissionService::allocate_memory` (permissions/mod.rs 140–187). -/
def allocate_memory (db : Db) (events : List WsEvent)
    (device_id : String) (memory_mb : Int) (alloc_id now : String) :
    Except String (Db × List WsEvent) :=
  match get_device db device_id with
  | none => .error "Device not found"
  | some device =>
    if device.status ≠ "approved" then
      .error "Device must be approved before allocating memory"
    else
      let quotaViolation : Option String :=
        match device.role_id with
        | some role_id =>
          match get_role db role_id with
          | some role =>
            if memory_mb > role.max_memory_mb then
              some (quotaErrorMsg memory_mb role)
            else none
          | none => none
        | none => none
      match quotaViolation with
      | some msg => .error msg
      | none =>
        let db := update_device_memory db device_id memory_mb
        let db := insert_allocation db (allocationRecord alloc_id device_id memory_mb now)
        .ok (db, events ++ [WsEvent.MemoryAllocated device_id memory_mb])

/-! ## Settings endpoint (`update_setting`, api/settings.rs 34–67) -/

/-- Rust `ALLOWED_KEYS` (api/settings.rs 40–49), in source order. -/
def ALLOWED_KEYS : List String :=
  ["auto_start_ollama", "ollama_host", "mdns_enabled", "trust_local_network",
   "backend_type", "backend_url", "backend_model", "backend_api_key"]

/-- Rust `PUT /api/settings/{key}` handler (api/settings.rs 34–67), returning the
HTTP status code and the store after the call.  The database write is
modelled as succeeding (its failure path returns 500 and is an environment
fault, not program logic). -/
def update_setting (db : Db) (key value : String) : Nat × Db :=
  if ¬ ALLOWED_KEYS.contains key then (400, db)
  else (200, set_setting db key value)

/-! ## Cluster start-inference endpoint (`start_inference`,
api/cluster.rs 174–245) -/

/-- Rust `StartInferenceRequest` (api/cluster.rs 20–29). -/
structure StartInferenceRequest where
  model_path : String
  device_ids : List String
  n_gpu_layers : Option Int
  ctx_size : Option Nat
deriving Repr

/-- What the handler did: either an early JSON error response with its HTTP
status, or a call into `LlamaCppManager::start_inference` with the resolved
arguments.  The `rejected` constructor means the supervisor is never
invoked, so no engine is launched. -/
inductive StartInferenceOutcome where
  | rejected (status : Nat) (error : String)
  | launched (model_path : String) (rpc_addresses : List String)
      (n_gpu_layers : Int) (ctx_size : Nat)
deriving DecidableEq, Repr

/-- The device-resolution loop of the handler (api/cluster.rs 197–219):
each id is looked up; the first missing id aborts with
`"Device not found: {id}"`; otherwise `"{ip}:{rpc_port}"` strings are
collected in request order. -/
def build_rpc_addresses (db : Db) : List String → Except String (List String)
  | [] => .ok []
  | id :: rest =>
    match get_device db id with
    | none => .error ("Device not found: " ++ id)
    | some device =>
      let ip := device.ip
      let port := device.rpc_port
      (build_rpc_addresses db rest).map (fun addrs => s!"{ip}:{port}" :: addrs)

/-- Rust `POST /api/cluster/inference/start` handler (api/cluster.rs 174–245):
validate the model path (400 on failure), cap `device_ids` at 20 (400),
resolve every device id (400 with `Device not found` on a missing id, the
supervisor untouched), then call `start_inference` with defaults
`n_gpu_layers = -1`, `ctx_size = 4096`. -/
def api_start_inference (db : Db) (req : StartInferenceRequest) :
    StartInferenceOutcome :=
  match validate_model_path req.model_path with
  | .error e => .rejected 400 e
  | .ok _ =>
    if req.device_ids.length > 20 then
      .rejected 400 "Too many device IDs (max 20)"
    else
      match build_rpc_addresses db req.device_ids with
      | .error e => .rejected 400 e
      | .ok addrs =>
        .launched req.model_path addrs (req.n_gpu_layers.getD (-1))
          (req.ctx_size.getD 4096)

/-! ## Process supervisor (`LlamaCppManager`, llama_cpp/mod.rs 61–664)

`LlamaCppState` holds the two optional child handles and the optional
current session; every mutation happens under the one state mutex, so each
locked critical section becomes one atomic step here.  A `Child` handle is
modelled as an opaque process id (`Nat`); `kill` is recorded in a `killed`
trace; broadcast sends append to an `events` trace.  Environment
observations (`try_wait` saying the child exited, binary discovery, spawn
success) are step parameters. -/

/-- Rust `InferenceSessionInfo` (llama_cpp/mod.rs 41–48). -/
structure InferenceSessionInfo where
  id : String
  model_path : String
  status : String
  rpc_devices : List String
  started_at : String
deriving DecidableEq, Repr

/-- Rust `LlamaCppState` (llama_cpp/mod.rs 63–67). -/
structure LlamaCppState where
  rpc_process : Option Nat
  inference_process : Option Nat
  current_session : Option InferenceSessionInfo
deriving DecidableEq, Repr

/-- The supervisor world: mutex-guarded state plus the observable traces. -/
structure SupWorld where
  st : LlamaCppState
  events : List WsEvent
  killed : List Nat
deriving DecidableEq, Repr

/-- Rust `LlamaCppManager::new`: no children, no session. -/
def initWorld : SupWorld :=
  { st := { rpc_process := none, inference_process := none, current_session := none }
    events := []
    killed := [] }

/-- The reap of the inference child shared by `get_status`, the watchdog
tick and `is_inference_running`: if the handle is live and `try_wait`
reports an exit (`infExited`), clear the handle, take the session and emit
`InferenceStopped` for it. -/
def reapInference (w : SupWorld) (infExited : Bool) : SupWorld :=
  match w.st.inference_process with
  | none => w
  | some _ =>
    if infExited then
      match w.st.current_session with
      | some session =>
        { st := { w.st with inference_process := none, current_session := none }
          events := w.events ++ [WsEvent.InferenceStopped session.id]
          killed := w.killed }
      | none =>
        { w with st := { w.st with inference_process := none } }
    else w

/-- The reap of the rpc child shared by `get_status`, the watchdog tick and
`is_rpc_running`: on an observed exit, clear the handle and emit
`RpcServerOffline`. -/
def reapRpc (w : SupWorld) (rpcExited : Bool) : SupWorld :=
  match w.st.rpc_process with
  | none => w
  | some _ =>
    if rpcExited then
      { w with
        st := { w.st with rpc_process := none }
        events := w.events ++ [WsEvent.RpcServerOffline] }
    else w

/-- Rust `LlamaCppManager::get_status` (llama_cpp/mod.rs 302–341): reap both
children, then read.  The state change is the two reaps. -/
def get_status_reap (w : SupWorld) (rpcExited infExited : Bool) : SupWorld :=
  reapInference (reapRpc w rpcExited) infExited

/-- One tick of the watchdog loop (llama_cpp/mod.rs 348–388): identical
reaping of both children under the mutex. -/
def watchdog_tick (w : SupWorld) (rpcExited infExited : Bool) : SupWorld :=
  reapInference (reapRpc w rpcExited) infExited

/-- Rust `LlamaCppManager::is_inference_running` (llama_cpp/mod.rs 610–631):
reaps the inference child. -/
def is_inference_running_reap (w : SupWorld) (infExited : Bool) : SupWorld :=
  reapInference w infExited

/-- Rust `LlamaCppManager::is_rpc_running` (llama_cpp/mod.rs 476–488):
reaps the rpc child. -/
def is_rpc_running_reap (w : SupWorld) (rpcExited : Bool) : SupWorld :=
  reapRpc w rpcExited

/-- Rust `LlamaCppManager::start_inference` (llama_cpp/mod.rs 499–594).
Parameters: `binFound` — `find_inference_server_bin().is_some()`;
`spawnOk` — whether `Command::spawn` succeeds; `newChild` — the spawned
child's handle; `session_id`, `started_at` — the fresh UUID and clock
reading.  Order of effects inside the critical section, as in the code:
kill any existing inference child, take and announce the old session,
spawn, record the new child + session, announce the start. -/
def start_inference_op (w : SupWorld) (model_path : String)
    (rpc_addresses : List String) (binFound spawnOk : Bool) (newChild : Nat)
    (session_id started_at : String) : SupWorld × Except String Unit :=
  match validate_model_path model_path with
  | .error e => (w, .error e)
  | .ok _ =>
    if ¬ binFound then
      (w, .error "llama-server not found. Install llama.cpp and add it to your PATH, or place it in ~/.sharedmem/bin/")
    else
      -- Kill existing inference if running
      let w1 : SupWorld :=
        match w.st.inference_process with
        | some child =>
          { w with
            st := { w.st with inference_process := none }
            killed := w.killed ++ [child] }
        | none => w
      let w2 : SupWorld :=
        match w1.st.current_session with
        | some session =>
          { w1 with
            st := { w1.st with current_session := none }
            events := w1.events ++ [WsEvent.InferenceStopped session.id] }
        | none => w1
      if ¬ spawnOk then (w2, .error "spawn failed")
      else
        let session : InferenceSessionInfo :=
          { id := session_id
            model_path := model_path
            status := "starting"
            rpc_devices := rpc_addresses
            started_at := started_at }
        ({ w2 with
           st := { w2.st with
                   inference_process := some newChild
                   current_session := some session }
           events := w2.events ++
             [WsEvent.InferenceStarted session_id model_path rpc_addresses] },
         .ok ())

/-- Rust `LlamaCppManager::stop_inference` (llama_cpp/mod.rs 596–608): kill and
clear the child if present, take the session and emit `InferenceStopped`. -/
def stop_inference_op (w : SupWorld) : SupWorld :=
  let w1 : SupWorld :=
    match w.st.inference_process with
    | some child =>
      { w with
        st := { w.st with inference_process := none }
        killed := w.killed ++ [child] }
    | none => w
  match w1.st.current_session with
  | some session =>
    { w1 with
      st := { w1.st with current_session := none }
      events := w1.events ++ [WsEvent.InferenceStopped session.id] }
  | none => w1

/-- Rust `LlamaCppManager::start_rpc_server` (llama_cpp/mod.rs 394–464),
collapsed to its state effect: no-op if a handle exists; on spawn the
handle is stored; if the 700 ms liveness check sees an exit the handle is
cleared and the call errors, otherwise `RpcServerReady` is emitted.
The engine handle and session are untouched. -/
def start_rpc_server_op (w : SupWorld) (binFound spawnOk exitedEarly : Bool)
    (newChild : Nat) (port : Int) : SupWorld × Except String Unit :=
  if ¬ binFound then
    (w, .error "llama-rpc-server not found. Install llama.cpp and add it to your PATH, or place it in ~/.sharedmem/bin/")
  else
    match w.st.rpc_process with
    | some _ => (w, .ok ())
    | none =>
      if ¬ spawnOk then (w, .error "spawn failed")
      else if exitedEarly then
        ({ w with st := { w.st with rpc_process := none } },
         .error "llama-rpc-server exited immediately after starting")
      else
        ({ w with
           st := { w.st with rpc_process := some newChild }
           events := w.events ++ [WsEvent.RpcServerReady port] },
         .ok ())

/-- Rust `LlamaCppManager::stop_rpc_server` (llama_cpp/mod.rs 466–474). -/
def stop_rpc_server_op (w : SupWorld) : SupWorld :=
  match w.st.rpc_process with
  | some child =>
    { st := { w.st with rpc_process := none }
      events := w.events ++ [WsEvent.RpcServerOffline]
      killed := w.killed ++ [child] }
  | none => w

/-- One atomic supervisor step: any of the state-mutating operations of
`LlamaCppManager`, with its environment observations chosen arbitrarily. -/
inductive SupStep : SupWorld → SupWorld → Prop
  | startInference (w : SupWorld) (mp : String) (addrs : List String)
      (bf so : Bool) (nc : Nat) (sid ts : String) :
      SupStep w (start_inference_op w mp addrs bf so nc sid ts).1
  | stopInference (w : SupWorld) : SupStep w (stop_inference_op w)
  | statusReap (w : SupWorld) (re ie : Bool) : SupStep w (get_status_reap w re ie)
  | watchdog (w : SupWorld) (re ie : Bool) : SupStep w (watchdog_tick w re ie)
  | isInfRunning (w : SupWorld) (ie : Bool) : SupStep w (is_inference_running_reap w ie)
  | isRpcRunning (w : SupWorld) (re : Bool) : SupStep w (is_rpc_running_reap w re)
  | startRpc (w : SupWorld) (bf so ee : Bool) (nc : Nat) (port : Int) :
      SupStep w (start_rpc_server_op w bf so ee nc port).1
  | stopRpc (w : SupWorld) : SupStep w (stop_rpc_server_op w)

/-- Supervisor worlds reachable from `LlamaCppManager::new`. -/
inductive SupReachable : SupWorld → Prop
  | init : SupReachable initWorld
  | step {w w' : SupWorld} : SupReachable w → SupStep w w' → SupReachable w'

/-! ## Sample stores and states used to instantiate the general theorems -/

/-- An empty store. -/
def emptyDb : Db := { devices := [], roles := [], allocations := [], settings := [] }

/-- Role `X` with a 2 048 MB cap (spec scenario 4). -/
def roleX : Role :=
  { id := "role-x", name := "X", max_memory_mb := 2048, can_pull_models := false,
    trust_level := 1, created_at := "2024-01-01T00:00:00Z" }

/-- An approved device referencing `roleX`. -/
def dev1 : Device :=
  { id := "d1", name := "peer-one", ip := "192.168.1.10", mac := none,
    hostname := none, platform := none, role_id := some "role-x",
    status := "approved", discovery_method := "mdns", allocated_memory_mb := 0,
    last_seen := none, first_seen := "2024-01-02T00:00:00Z",
    created_at := "2024-01-02T00:00:00Z", rpc_port := 8181,
    rpc_status := "offline", memory_total_mb := 8192, memory_free_mb := 6000 }

/-- A device still pending approval. -/
def dev2 : Device :=
  { dev1 with
    id := "d2"
    name := "peer-two"
    ip := "192.168.1.11"
    status := "pending"
    role_id := none }

/-- An approved device with no role reference. -/
def dev3 : Device :=
  { dev1 with
    id := "d3"
    name := "peer-three"
    ip := "192.168.1.12"
    role_id := none }

/-- Store with one role and the three devices above. -/
def exDb : Db :=
  { devices := [dev1, dev2, dev3], roles := [roleX], allocations := [], settings := [] }

/-- The analysis produced for a 2 500 MB model with 8 000 MB local free
memory and no peers (spec scenario 1), used to instantiate the planner
invariants. -/
def sampleLocalFit : ModelAnalysis :=
  { model_size_mb := 2500
    estimated_layers := 32
    local_free_mb := 8000
    cluster_free_mb := 0
    total_available_mb := 8000
    fit_status := .fits_locally
    recommended_n_gpu_layers := -1
    recommended_ctx_size := 16384
    warnings := [] }

/-- A supervisor world with a live engine child and a session. -/
def runningWorld : SupWorld :=
  { st := { rpc_process := none, inference_process := some 7,
            current_session := some
              { id := "s0", model_path := "/models/old.gguf", status := "starting",
                rpc_devices := [], started_at := "2024-01-03T00:00:00Z" } }
    events := []
    killed := [] }

end SharedLLM

deriving instance DecidableEq for Except

namespace SharedLLM

/-! # Theorems

One theorem per claim of the specification review, with shared helper
lemmas in between. -/

/-- Helper: `roundLayerShare layers num den ≤ layers` whenever
`num ≤ den` and `den > 0` — the planner never recommends more GPU layers
than the estimate. -/
theorem roundLayerShare_le (layers num den : Nat) (hnd : num ≤ den)
    (hden : 0 < den) : roundLayerShare layers num den ≤ layers := by
  unfold roundLayerShare
  have h2d : 0 < 2 * den := by omega
  have : 2 * layers * num + den < (layers + 1) * (2 * den) := by nlinarith
  have := (Nat.div_lt_iff_lt_mul h2d).mpr this
  omega

/-- C5: `validate_model_path` rejects the empty string, every non-absolute
path, every path containing `..`, every path whose file extension is not
`.gguf` case-insensitively, and every path beginning with a protected
system-directory prefix; all other paths are accepted.  The characterization
is stated as an exact iff, followed by the spec's boundary examples
(`/etc/passwd` is rejected — the extension check fires before the prefix
check, so a protected-prefix probe with a `.gguf` extension is also shown). -/
theorem C5_validate_model_path_characterization :
    (∀ p : String, validate_model_path p = .ok () ↔
      (p ≠ "" ∧ pathIsAbsolute p = true ∧ containsDotDot p = false ∧
       asciiLower ((pathExtension p).getD []) = ['g', 'g', 'u', 'f'] ∧
       ∀ pre ∈ disallowedPrefixes, strStartsWith p pre = false)) ∧
    validate_model_path "" = .error "Model path cannot be empty" ∧
    validate_model_path "./model.gguf" = .error "Model path must be an absolute path" ∧
    validate_model_path "/home/u/../etc/model.gguf" = .error "Model path must not contain '..'" ∧
    validate_model_path "/etc/passwd" = .error "Model path must point to a .gguf file" ∧
    validate_model_path "/etc/shadow.gguf" = .error "Model path is not in an allowed location" ∧
    validate_model_path "/models/mini.GGUF" = .ok () ∧
    validate_model_path "/models/mini.bin" = .error "Model path must point to a .gguf file" := by
  refine ⟨?_, by decide, by decide, by decide, by decide, by decide, by decide, by decide⟩
  intro p
  have hall : (∀ pre ∈ disallowedPrefixes, strStartsWith p pre = false) ↔
      ((disallowedPrefixes.any fun pre => strStartsWith p pre) = false) := by
    simp [List.any_eq_false]
  rw [hall]
  unfold validate_model_path
  by_cases h1 : p = "" <;> by_cases h2 : pathIsAbsolute p = true <;>
    by_cases h3 : containsDotDot p = true <;>
    by_cases h4 : asciiLower ((pathExtension p).getD []) = ['g', 'g', 'u', 'f'] <;>
    by_cases h5 : (disallowedPrefixes.any fun pre => strStartsWith p pre) = true <;>
    simp [h1, h2, h3, h4, h5]

/-- Helper: inversion of a successful `analyze_model` call — the returned
analysis is exactly the record built from the computed size, layer
estimate, fit decision and recommendations. -/
theorem analyze_model_ok_shape (mp : String) (sz : Option Nat) (lf : Nat)
    (devs : List Nat) (a : ModelAnalysis)
    (h : analyze_model mp sz lf devs = .ok a) :
    ∃ msz, msz = (sz.map (fun len => len / (1024 * 1024))).getD 0 ∧ msz ≠ 0 ∧
      a = { model_size_mb := msz
            estimated_layers := estimate_layers msz
            local_free_mb := lf
            cluster_free_mb := devs.sum
            total_available_mb := lf + devs.sum
            fit_status := (fit_decision msz lf devs.sum (lf + devs.sum)).1
            recommended_n_gpu_layers :=
              recommended_layers (fit_decision msz lf devs.sum (lf + devs.sum)).1
                (estimate_layers msz) lf (lf + devs.sum) msz
            recommended_ctx_size := recommended_ctx ((lf + devs.sum) - msz)
            warnings := (fit_decision msz lf devs.sum (lf + devs.sum)).2 } := by
  unfold analyze_model at h
  cases hv : validate_model_path mp with
  | error e => rw [hv] at h; simp [Bind.bind, Except.bind] at h
  | ok u =>
    rw [hv] at h
    simp only [Bind.bind, Except.bind] at h
    by_cases hz : (sz.map (fun len => len / (1024 * 1024))).getD 0 = 0
    · rw [if_pos hz] at h
      simp [throw, throwThe, MonadExceptOf.throw] at h
    · rw [if_neg hz] at h
      simp only [pure, Except.pure, Except.ok.injEq] at h
      exact ⟨_, rfl, hz, h.symm⟩

/-- Helper: across all four verdict branches the recommended layer count is
either the sentinel −1 (fits-locally) or lies between 0 and the layer
estimate; in the too-large branch it is 0 and a warning was pushed. -/
theorem fit_decision_layer_cases (msz lf cf : Nat) :
    ((0 ≤ recommended_layers (fit_decision msz lf cf (lf + cf)).1
            (estimate_layers msz) lf (lf + cf) msz ∧
      recommended_layers (fit_decision msz lf cf (lf + cf)).1
            (estimate_layers msz) lf (lf + cf) msz ≤ (estimate_layers msz : Int)) ∨
     recommended_layers (fit_decision msz lf cf (lf + cf)).1
            (estimate_layers msz) lf (lf + cf) msz = -1) ∧
    ((fit_decision msz lf cf (lf + cf)).1 = .fits_locally →
      recommended_layers (fit_decision msz lf cf (lf + cf)).1
        (estimate_layers msz) lf (lf + cf) msz = -1) ∧
    ((fit_decision msz lf cf (lf + cf)).1 = .too_large →
      recommended_layers (fit_decision msz lf cf (lf + cf)).1
        (estimate_layers msz) lf (lf + cf) msz = 0 ∧
      (fit_decision msz lf cf (lf + cf)).2 ≠ []) := by
  unfold fit_decision
  split_ifs with h1 h2 h3 h4
  · simp [recommended_layers]
  · have htot : 0 < lf + cf := by omega
    have hb := roundLayerShare_le (estimate_layers msz) lf (lf + cf)
      (Nat.le_add_right _ _) htot
    simp only [recommended_layers, if_pos htot]
    refine ⟨Or.inl ⟨by positivity, by exact_mod_cast hb⟩, by simp, by simp⟩
  · have hb := roundLayerShare_le (estimate_layers msz) (min lf msz) msz
      (Nat.min_le_right _ _) (by omega)
    simp only [recommended_layers]
    rw [if_pos (by omega : msz > 0)]
    refine ⟨Or.inl ⟨by positivity, by exact_mod_cast hb⟩, by simp, by simp⟩
  · have hb := roundLayerShare_le (estimate_layers msz) (min lf msz) msz
      (Nat.min_le_right _ _) (by omega)
    simp only [recommended_layers]
    rw [if_pos (by omega : msz > 0)]
    refine ⟨Or.inl ⟨by positivity, by exact_mod_cast hb⟩, by simp, by simp⟩
  · simp [recommended_layers]

/-- C2: whenever `analyze_model` succeeds, the recommended GPU-layer count
lies in `[0, estimated_layers] ∪ {−1}`; a fits-locally verdict forces −1;
a too-large verdict forces 0 together with a non-empty warning list. -/
theorem C2_n_gpu_layers_bounds (mp : String) (sz : Option Nat) (lf : Nat)
    (devs : List Nat) (a : ModelAnalysis)
    (h : analyze_model mp sz lf devs = .ok a) :
    ((0 ≤ a.recommended_n_gpu_layers ∧
      a.recommended_n_gpu_layers ≤ (a.estimated_layers : Int)) ∨
     a.recommended_n_gpu_layers = -1) ∧
    (a.fit_status = .fits_locally → a.recommended_n_gpu_layers = -1) ∧
    (a.fit_status = .too_large →
      a.recommended_n_gpu_layers = 0 ∧ a.warnings ≠ []) := by
  obtain ⟨msz, hdef, hz, ha⟩ := analyze_model_ok_shape mp sz lf devs a h
  subst ha
  simpa using fit_decision_layer_cases msz lf devs.sum

/-- Witness for C2 at the all-local scenario (2 500 MB file, 8 000 MB local
free, no peers). -/
theorem C2_n_gpu_layers_bounds_witness :
    ((0 ≤ sampleLocalFit.recommended_n_gpu_layers ∧
      sampleLocalFit.recommended_n_gpu_layers ≤ (sampleLocalFit.estimated_layers : Int)) ∨
     sampleLocalFit.recommended_n_gpu_layers = -1) ∧
    (sampleLocalFit.fit_status = .fits_locally →
      sampleLocalFit.recommended_n_gpu_layers = -1) ∧
    (sampleLocalFit.fit_status = .too_large →
      sampleLocalFit.recommended_n_gpu_layers = 0 ∧ sampleLocalFit.warnings ≠ []) :=
  C2_n_gpu_layers_bounds "/models/w2.gguf" (some 2621440000) 8000 []
    sampleLocalFit (by decide)

/-- C1 counterexample: on the distributed-fit scenario (10 000 MB file,
local_free = 4 000, peers [6 000, 6 000]) the remaining memory after the
model is 16 000 − 10 000 = 6 000 MB, which falls in the `≥ 4 096` row of
the context table, so `analyze_model` recommends ctx 16 384 — not the
8 192 the claim states. -/
theorem C1_counterexample_ctx_size :
    (analyze_model "/models/m.gguf" (some 10485760000) 4000 [6000, 6000]).toOption.map
      ModelAnalysis.recommended_ctx_size ≠ some 8192 := by decide

/-- C1 amended: on the distributed scenario `analyze_model` returns verdict
fits-distributed, estimated layers 48, recommended_n_gpu_layers
round(48 × 4000 / 16000) = 12, and recommended_ctx_size 16 384 (remaining
6 000 MB ≥ 4 096). -/
theorem C1_amended_distributed_scenario :
    analyze_model "/models/m.gguf" (some 10485760000) 4000 [6000, 6000] =
      .ok { model_size_mb := 10000
            estimated_layers := 48
            local_free_mb := 4000
            cluster_free_mb := 12000
            total_available_mb := 16000
            fit_status := .fits_distributed
            recommended_n_gpu_layers := 12
            recommended_ctx_size := 16384
            warnings := [] } := by decide

/-- C7: on the too-large scenario (90 000 MB file, local 8 000,
peers [8 000]) `analyze_model` returns verdict too-large,
recommended_n_gpu_layers 0, recommended_ctx_size 2 048, and one warning
reporting the rounded-up GB needed versus available — the figures
~88 GB needed ((90000+511)/1024) and 16 GB available ((16000+511)/1024)
both appear in the warning text. -/
theorem C7_too_large_scenario :
    analyze_model "/models/big.gguf" (some 94371840000) 8000 [8000] =
      .ok { model_size_mb := 90000
            estimated_layers := 80
            local_free_mb := 8000
            cluster_free_mb := 8000
            total_available_mb := 16000
            fit_status := .too_large
            recommended_n_gpu_layers := 0
            recommended_ctx_size := 2048
            warnings := ["Model needs ~88 GB but only 16 GB available across cluster"] } ∧
    (90000 + 511) / 1024 = 88 ∧ (16000 + 511) / 1024 = 16 ∧
    List.IsInfix "~88 GB".toList
      "Model needs ~88 GB but only 16 GB available across cluster".toList ∧
    List.IsInfix "16 GB available".toList
      "Model needs ~88 GB but only 16 GB available across cluster".toList := by
  refine ⟨by decide, by decide, by decide, ?_, ?_⟩ <;> decide

/-- Helper: updating `allocated_memory_mb` on the row with id `did`
rewrites exactly the row that `find?` located, leaving its identity. -/
theorem find?_update_allocated (l : List Device) (did : String) (m : Int)
    (d : Device) (h : l.find? (fun d => d.id = did) = some d) :
    (l.map (fun d =>
        if d.id = did then { d with allocated_memory_mb := m } else d)).find?
      (fun d => d.id = did) = some { d with allocated_memory_mb := m } := by
  induction l with
  | nil => simp at h
  | cons x xs ih =>
    by_cases hx : x.id = did
    · rw [List.find?_cons_of_pos _ (by simpa using hx)] at h
      have hxd : x = d := by simpa using h
      subst hxd
      rw [List.map_cons, if_pos hx, List.find?_cons_of_pos _ (by simpa using hx)]
    · rw [List.find?_cons_of_neg _ (by simpa using hx)] at h
      rw [List.map_cons, if_neg hx, List.find?_cons_of_neg _ (by simpa using hx)]
      exact ih h

/-- C3: for an approved device whose role reference resolves, a request
above the role's cap fails with the quota error (the code bails before any
write, so the store and event stream are untouched); a request within the
cap persists the value on the device row, appends the timestamped
allocation record, and emits `memory-allocated`.  A request on a device
that is not approved fails. -/
theorem C3_allocate_memory_role_quota (db : Db) (events : List WsEvent)
    (did : String) (m : Int) (aid now : String) :
    (∀ d rid role, get_device db did = some d → d.status = "approved" →
       d.role_id = some rid → get_role db rid = some role →
       ((role.max_memory_mb < m →
           allocate_memory db events did m aid now = .error (quotaErrorMsg m role)) ∧
        (m ≤ role.max_memory_mb →
           allocate_memory db events did m aid now =
             .ok (insert_allocation (update_device_memory db did m)
                    (allocationRecord aid did m now),
                  events ++ [WsEvent.MemoryAllocated did m]) ∧
           get_device (insert_allocation (update_device_memory db did m)
                    (allocationRecord aid did m now)) did =
             some { d with allocated_memory_mb := m } ∧
           (insert_allocation (update_device_memory db did m)
                    (allocationRecord aid did m now)).allocations =
             db.allocations ++ [allocationRecord aid did m now]))) ∧
    (∀ d, get_device db did = some d → d.status ≠ "approved" →
       allocate_memory db events did m aid now =
         .error "Device must be approved before allocating memory") := by
  constructor
  · intro d rid role hd happ hrole hr
    constructor
    · intro hgt
      simp [allocate_memory, hd, happ, hrole, hr, hgt]
    · intro hle
      have hng : ¬ (m > role.max_memory_mb) := not_lt.mpr hle
      have hfind := find?_update_allocated db.devices did m d hd
      simp only [allocate_memory, hd, happ, hrole, hr, hng, ne_eq,
        not_true_eq_false, if_false, ite_false, if_neg hng]
      refine ⟨by simp [happ], ?_, rfl⟩
      unfold get_device update_device_memory insert_allocation at *
      simpa [happ, hrole] using hfind
  · intro d hd hnapp
    simp [allocate_memory, hd, hnapp]

/-- Witness for C3 on a concrete store: role X caps at 2 048 MB, device d1
is approved with role X; allocating 3 000 MB fails with the quota error,
allocating 1 024 MB succeeds and emits `memory-allocated`, and an
allocation on the pending device d2 fails. -/
theorem C3_allocate_memory_role_quota_witness :
    allocate_memory exDb [] "d1" 3000 "a1" "t1" = .error (quotaErrorMsg 3000 roleX) ∧
    allocate_memory exDb [] "d1" 1024 "a2" "t2" =
      .ok (insert_allocation (update_device_memory exDb "d1" 1024)
             (allocationRecord "a2" "d1" 1024 "t2"),
           [] ++ [WsEvent.MemoryAllocated "d1" 1024]) ∧
    allocate_memory exDb [] "d2" 100 "a3" "t3" =
      .error "Device must be approved before allocating memory" :=
  ⟨((C3_allocate_memory_role_quota exDb [] "d1" 3000 "a1" "t1").1 dev1 "role-x"
      roleX (by decide) rfl rfl (by decide)).1 (by decide),
   (((C3_allocate_memory_role_quota exDb [] "d1" 1024 "a2" "t2").1 dev1 "role-x"
      roleX (by decide) rfl rfl (by decide)).2 (by decide)).1,
   (C3_allocate_memory_role_quota exDb [] "d2" 100 "a3" "t3").2 dev2
     (by decide) (by decide)⟩

/-- C4 counterexample: on the approved device d3, which references no role,
`allocate_memory` does not fail — the role-cap check is skipped and the
call persists the value, appends a record and emits `memory-allocated`. -/
theorem C4_counterexample_no_role_allocation_succeeds :
    allocate_memory exDb [] "d3" 123 "a1" "t1" =
      .ok (insert_allocation (update_device_memory exDb "d3" 123)
             (allocationRecord "a1" "d3" 123 "t1"),
           [WsEvent.MemoryAllocated "d3" 123]) := by decide

/-- C4 amended: for every approved device whose role reference is absent,
every memory-allocation request succeeds with no quota check — the value is
persisted, an allocation record is appended, and `memory-allocated` is
emitted. -/
theorem C4_amended_no_role_allocation (db : Db) (events : List WsEvent)
    (did : String) (m : Int) (aid now : String) (d : Device)
    (hd : get_device db did = some d) (happ : d.status = "approved")
    (hrole : d.role_id = none) :
    allocate_memory db events did m aid now =
      .ok (insert_allocation (update_device_memory db did m)
             (allocationRecord aid did m now),
           events ++ [WsEvent.MemoryAllocated did m]) ∧
    get_device (insert_allocation (update_device_memory db did m)
             (allocationRecord aid did m now)) did =
      some { d with allocated_memory_mb := m } ∧
    (insert_allocation (update_device_memory db did m)
             (allocationRecord aid did m now)).allocations =
      db.allocations ++ [allocationRecord aid did m now] := by
  have hfind := find?_update_allocated db.devices did m d hd
  simp only [allocate_memory, hd, happ, hrole, ne_eq, not_true_eq_false,
    if_false, ite_false]
  refine ⟨by simp [happ], ?_, rfl⟩
  unfold get_device update_device_memory insert_allocation at *
  simpa [happ, hrole] using hfind

/-- Witness for the amended C4 on the concrete store. -/
theorem C4_amended_no_role_allocation_witness :
    allocate_memory exDb [] "d3" 77 "a4" "t4" =
      .ok (insert_allocation (update_device_memory exDb "d3" 77)
             (allocationRecord "a4" "d3" 77 "t4"),
           [] ++ [WsEvent.MemoryAllocated "d3" 77]) ∧
    get_device (insert_allocation (update_device_memory exDb "d3" 77)
             (allocationRecord "a4" "d3" 77 "t4")) "d3" =
      some { dev3 with allocated_memory_mb := 77 } ∧
    (insert_allocation (update_device_memory exDb "d3" 77)
             (allocationRecord "a4" "d3" 77 "t4")).allocations =
      exDb.allocations ++ [allocationRecord "a4" "d3" 77 "t4"] :=
  C4_amended_no_role_allocation exDb [] "d3" 77 "a4" "t4" dev3 (by decide) rfl rfl

/-- C10: `allocate_memory` imposes no lower bound — for an approved device
whose role cap (if any resolves) is nonnegative, a zero or negative request
passes the `memory_mb > max_memory_mb` check, is persisted as the device's
allocated MB, is recorded in the append-only allocation table, and emits
`memory-allocated`. -/
theorem C10_allocate_memory_no_lower_bound (db : Db) (events : List WsEvent)
    (did : String) (m : Int) (aid now : String) (d : Device)
    (hd : get_device db did = some d) (happ : d.status = "approved")
    (hm : m ≤ 0)
    (hcap : ∀ rid role, d.role_id = some rid → get_role db rid = some role →
        0 ≤ role.max_memory_mb) :
    allocate_memory db events did m aid now =
      .ok (insert_allocation (update_device_memory db did m)
             (allocationRecord aid did m now),
           events ++ [WsEvent.MemoryAllocated did m]) ∧
    get_device (insert_allocation (update_device_memory db did m)
             (allocationRecord aid did m now)) did =
      some { d with allocated_memory_mb := m } ∧
    (insert_allocation (update_device_memory db did m)
             (allocationRecord aid did m now)).allocations =
      db.allocations ++ [allocationRecord aid did m now] := by
  have hfind := find?_update_allocated db.devices did m d hd
  have hquota :
      (match d.role_id with
        | some role_id =>
          match get_role db role_id with
          | some role => if m > role.max_memory_mb then some (quotaErrorMsg m role) else none
          | none => none
        | none => none) = (none : Option String) := by
    cases hrid : d.role_id with
    | none => rfl
    | some rid =>
      cases hr : get_role db rid with
      | none => simp [hr]
      | some role =>
        have hle := hcap rid role hrid hr
        have hng : ¬ (m > role.max_memory_mb) := by omega
        simp [hr, hng]
  simp only [allocate_memory, hd, happ, ne_eq, not_true_eq_false,
    if_false, ite_false, hquota]
  refine ⟨by simp [happ], ?_, rfl⟩
  unfold get_device update_device_memory insert_allocation at *
  simpa [happ] using hfind

/-- Witness for C10: −512 MB is accepted on device d1 (role cap 2 048) and
persisted as the stored allocation. -/
theorem C10_allocate_memory_no_lower_bound_witness :
    allocate_memory exDb [] "d1" (-512) "a5" "t5" =
      .ok (insert_allocation (update_device_memory exDb "d1" (-512))
             (allocationRecord "a5" "d1" (-512) "t5"),
           [] ++ [WsEvent.MemoryAllocated "d1" (-512)]) ∧
    get_device (insert_allocation (update_device_memory exDb "d1" (-512))
             (allocationRecord "a5" "d1" (-512) "t5")) "d1" =
      some { dev1 with allocated_memory_mb := -512 } ∧
    (insert_allocation (update_device_memory exDb "d1" (-512))
             (allocationRecord "a5" "d1" (-512) "t5")).allocations =
      exDb.allocations ++ [allocationRecord "a5" "d1" (-512) "t5"] :=
  C10_allocate_memory_no_lower_bound exDb [] "d1" (-512) "a5" "t5" dev1
    (by decide) rfl (by decide)
    (fun rid role hrid hr => by
      have h1 : some "role-x" = some rid := hrid
      injection h1 with h1
      subst h1
      have h2 : some roleX = some role := hr
      injection h2 with h2
      subst h2
      decide)

/-- C8 counterexample: the claim lists `default_role` among the accepted
settings keys, but the handler's `ALLOWED_KEYS` array has only eight
entries and `default_role` is not one of them, so
`PUT /api/settings/default_role` is rejected with 400. -/
theorem C8_counterexample_default_role_rejected :
    (update_setting emptyDb "default_role" "role-admin").1 = 400 := by decide

/-- C8 amended: `PUT /api/settings/{key}` succeeds (200, upserting the
setting) for exactly the eight keys of the code's allow-list — without
`default_role` — and returns 400 leaving the store untouched for every
other key. -/
theorem C8_amended_settings_allow_list (db : Db) (key value : String) :
    ((update_setting db key value).1 = 200 ↔
      key ∈ ["auto_start_ollama", "ollama_host", "mdns_enabled",
             "trust_local_network", "backend_type", "backend_url",
             "backend_model", "backend_api_key"]) ∧
    ((update_setting db key value).1 = 200 ∨ (update_setting db key value).1 = 400) ∧
    ((update_setting db key value).1 = 400 → (update_setting db key value).2 = db) ∧
    ((update_setting db key value).1 = 200 →
      (update_setting db key value).2 = set_setting db key value) := by
  unfold update_setting
  by_cases hc : ALLOWED_KEYS.contains key
  · rw [if_neg (not_not_intro hc)]
    have hmem : key ∈ ALLOWED_KEYS := by simpa using hc
    exact ⟨iff_of_true rfl hmem, Or.inl rfl,
      fun h => absurd h (by omega), fun _ => rfl⟩
  · rw [if_pos hc]
    have hmem : key ∉ ALLOWED_KEYS := by simpa using hc
    exact ⟨iff_of_false (by omega) hmem, Or.inr rfl,
      fun _ => rfl, fun h => absurd h (by omega)⟩

/-- Witness for the amended C8 at an allow-listed key. -/
theorem C8_amended_settings_allow_list_witness :
    (((update_setting emptyDb "backend_url" "http://x").1 = 200 ↔
      "backend_url" ∈ ["auto_start_ollama", "ollama_host", "mdns_enabled",
             "trust_local_network", "backend_type", "backend_url",
             "backend_model", "backend_api_key"]) ∧
    ((update_setting emptyDb "backend_url" "http://x").1 = 200 ∨
      (update_setting emptyDb "backend_url" "http://x").1 = 400) ∧
    ((update_setting emptyDb "backend_url" "http://x").1 = 400 →
      (update_setting emptyDb "backend_url" "http://x").2 = emptyDb) ∧
    ((update_setting emptyDb "backend_url" "http://x").1 = 200 →
      (update_setting emptyDb "backend_url" "http://x").2 =
        set_setting emptyDb "backend_url" "http://x")) :=
  C8_amended_settings_allow_list emptyDb "backend_url" "http://x"

/-- Helper: if any requested device id is absent from the store, the
resolution loop of the start-inference handler stops at the first such id
with a `Device not found` error. -/
theorem build_rpc_addresses_missing (db : Db) (ids : List String)
    (h : ∃ id ∈ ids, get_device db id = none) :
    ∃ badId, get_device db badId = none ∧
      build_rpc_addresses db ids = .error ("Device not found: " ++ badId) := by
  induction ids with
  | nil => simp at h
  | cons id rest ih =>
    cases hid : get_device db id with
    | none => exact ⟨id, hid, by simp [build_rpc_addresses, hid]⟩
    | some device =>
      obtain ⟨x, hx, hxn⟩ := h
      rcases List.mem_cons.mp hx with hx1 | hx2
      · subst hx1
        rw [hid] at hxn
        exact Option.noConfusion hxn
      · obtain ⟨b, hb, herr⟩ := ih ⟨x, hx2, hxn⟩
        refine ⟨b, hb, ?_⟩
        simp [build_rpc_addresses, hid, herr, Except.map]

/-- C9 counterexample: a start-inference request naming an unknown device
id is rejected with HTTP 400 (the handler's `StatusCode::BAD_REQUEST`
branch), not the 404 the claim states; the supervisor is never invoked. -/
theorem C9_counterexample_unknown_device_status :
    api_start_inference emptyDb
      { model_path := "/models/m9.gguf", device_ids := ["ghost"],
        n_gpu_layers := none, ctx_size := none } =
      .rejected 400 "Device not found: ghost" := by decide

/-- C9 amended: when the request passes path validation and the 20-id cap
but names a device id with no record, the handler returns 400 with a
`Device not found` error and never reaches the supervisor call, so no
engine is launched. -/
theorem C9_amended_unknown_device_rejected (db : Db)
    (req : StartInferenceRequest)
    (hval : validate_model_path req.model_path = .ok ())
    (hlen : req.device_ids.length ≤ 20)
    (hmiss : ∃ id ∈ req.device_ids, get_device db id = none) :
    ∃ badId, get_device db badId = none ∧
      api_start_inference db req = .rejected 400 ("Device not found: " ++ badId) := by
  obtain ⟨b, hb, herr⟩ := build_rpc_addresses_missing db req.device_ids hmiss
  have hnl : ¬ (req.device_ids.length > 20) := by omega
  exact ⟨b, hb, by simp [api_start_inference, hval, hnl, herr]⟩

/-- Witness for the amended C9 on the empty store. -/
theorem C9_amended_unknown_device_rejected_witness :
    ∃ badId, get_device emptyDb badId = none ∧
      api_start_inference emptyDb
        { model_path := "/models/w9.gguf", device_ids := ["nobody"],
          n_gpu_layers := none, ctx_size := none } =
        .rejected 400 ("Device not found: " ++ badId) :=
  C9_amended_unknown_device_rejected emptyDb
    { model_path := "/models/w9.gguf", device_ids := ["nobody"],
      n_gpu_layers := none, ctx_size := none }
    (by decide) (by decide) ⟨"nobody", by simp, by decide⟩

/-- Helper: the rpc reap never touches the engine handle or the session. -/
theorem reapRpc_inv (w : SupWorld) (re : Bool)
    (h : w.st.inference_process.isSome = w.st.current_session.isSome) :
    (reapRpc w re).st.inference_process.isSome =
      (reapRpc w re).st.current_session.isSome := by
  unfold reapRpc
  cases hr : w.st.rpc_process
  · exact h
  · split_ifs <;> exact h

/-- Helper: the inference reap clears the handle and the session together. -/
theorem reapInference_inv (w : SupWorld) (ie : Bool)
    (h : w.st.inference_process.isSome = w.st.current_session.isSome) :
    (reapInference w ie).st.inference_process.isSome =
      (reapInference w ie).st.current_session.isSome := by
  unfold reapInference
  cases hi : w.st.inference_process
  · exact h
  · split_ifs with hie
    · cases hs : w.st.current_session <;> simp [hs]
    · exact h

/-- Helper: `start_inference` ends with handle and session either both set
(successful spawn) or both cleared (spawn failure after the old engine was
taken down); its early error returns leave the state untouched. -/
theorem start_inference_op_inv (w : SupWorld) (mp : String)
    (addrs : List String) (bf so : Bool) (nc : Nat) (sid ts : String)
    (h : w.st.inference_process.isSome = w.st.current_session.isSome) :
    (start_inference_op w mp addrs bf so nc sid ts).1.st.inference_process.isSome =
      (start_inference_op w mp addrs bf so nc sid ts).1.st.current_session.isSome := by
  unfold start_inference_op
  cases hv : validate_model_path mp with
  | error e => exact h
  | ok u =>
    dsimp only
    split_ifs with hbf hso
    · simp
    · cases hi : w.st.inference_process <;> cases hs : w.st.current_session <;>
        simp [hi, hs]
    · exact h

/-- Helper: `stop_inference` clears handle and session together. -/
theorem stop_inference_op_inv (w : SupWorld)
    (_h : w.st.inference_process.isSome = w.st.current_session.isSome) :
    (stop_inference_op w).st.inference_process.isSome =
      (stop_inference_op w).st.current_session.isSome := by
  unfold stop_inference_op
  cases hi : w.st.inference_process <;> cases hs : w.st.current_session <;>
    simp [hi, hs]

/-- Helper: the rpc start path never touches the engine handle or session. -/
theorem start_rpc_server_op_inv (w : SupWorld) (bf so ee : Bool) (nc : Nat)
    (port : Int)
    (h : w.st.inference_process.isSome = w.st.current_session.isSome) :
    (start_rpc_server_op w bf so ee nc port).1.st.inference_process.isSome =
      (start_rpc_server_op w bf so ee nc port).1.st.current_session.isSome := by
  unfold start_rpc_server_op
  split_ifs <;> cases hr : w.st.rpc_process <;> simp [hr] <;> exact h

/-- Helper: the rpc stop path never touches the engine handle or session. -/
theorem stop_rpc_server_op_inv (w : SupWorld)
    (h : w.st.inference_process.isSome = w.st.current_session.isSome) :
    (stop_rpc_server_op w).st.inference_process.isSome =
      (stop_rpc_server_op w).st.current_session.isSome := by
  unfold stop_rpc_server_op
  cases hr : w.st.rpc_process
  · exact h
  · exact h

/-- C6: in every supervisor state reachable from `LlamaCppManager::new`
through the state-mutating operations (start/stop of either child, the
status-query reap, the watchdog tick, the liveness queries), the engine
child handle is present iff a current session is present — at most one
session ever exists, since the state holds at most one `Option` session.
Moreover a successful `start_inference` on a running engine kills the old
engine child, emits `inference-stopped` for the old session, and only then
records and announces the new session. -/
theorem C6_supervisor_engine_session_invariant :
    (∀ w, SupReachable w →
       w.st.inference_process.isSome = w.st.current_session.isSome) ∧
    (∀ (w : SupWorld) (c : Nat) (sess : InferenceSessionInfo) (mp : String)
       (addrs : List String) (nc : Nat) (sid ts : String),
       w.st.inference_process = some c → w.st.current_session = some sess →
       validate_model_path mp = .ok () →
       (start_inference_op w mp addrs true true nc sid ts).1.events =
         w.events ++ [WsEvent.InferenceStopped sess.id,
                      WsEvent.InferenceStarted sid mp addrs] ∧
       (start_inference_op w mp addrs true true nc sid ts).1.killed =
         w.killed ++ [c] ∧
       (start_inference_op w mp addrs true true nc sid ts).1.st.current_session =
         some ⟨sid, mp, "starting", addrs, ts⟩ ∧
       (start_inference_op w mp addrs true true nc sid ts).1.st.inference_process =
         some nc) := by
  constructor
  · intro w hw
    induction hw with
    | init => rfl
    | step hw hs ih =>
      cases hs with
      | startInference mp addrs bf so nc sid ts =>
        exact start_inference_op_inv _ mp addrs bf so nc sid ts ih
      | stopInference => exact stop_inference_op_inv _ ih
      | statusReap re ie => exact reapInference_inv _ ie (reapRpc_inv _ re ih)
      | watchdog re ie => exact reapInference_inv _ ie (reapRpc_inv _ re ih)
      | isInfRunning ie => exact reapInference_inv _ ie ih
      | isRpcRunning re => exact reapRpc_inv _ re ih
      | startRpc bf so ee nc port =>
        exact start_rpc_server_op_inv _ bf so ee nc port ih
      | stopRpc => exact stop_rpc_server_op_inv _ ih
  · intro w c sess mp addrs nc sid ts hproc hsess hval
    have hred : start_inference_op w mp addrs true true nc sid ts =
        (⟨⟨w.st.rpc_process, some nc, some ⟨sid, mp, "starting", addrs, ts⟩⟩,
          (w.events ++ [WsEvent.InferenceStopped sess.id]) ++
            [WsEvent.InferenceStarted sid mp addrs],
          w.killed ++ [c]⟩, .ok ()) := by
      unfold start_inference_op
      rw [hval]
      simp [hproc, hsess]
    refine ⟨?_, ?_, ?_, ?_⟩ <;> simp [hred]

/-- Witness for C6: the invariant at the initial state, and the
kill/stop/start ordering on a world with engine child 7 and session s0. -/
theorem C6_supervisor_engine_session_invariant_witness :
    (initWorld.st.inference_process.isSome =
      initWorld.st.current_session.isSome) ∧
    ((start_inference_op runningWorld "/models/new.gguf" ["10.0.0.2:8181"]
        true true 9 "s1" "t6").1.events =
      runningWorld.events ++ [WsEvent.InferenceStopped "s0",
        WsEvent.InferenceStarted "s1" "/models/new.gguf" ["10.0.0.2:8181"]] ∧
     (start_inference_op runningWorld "/models/new.gguf" ["10.0.0.2:8181"]
        true true 9 "s1" "t6").1.killed = runningWorld.killed ++ [7] ∧
     (start_inference_op runningWorld "/models/new.gguf" ["10.0.0.2:8181"]
        true true 9 "s1" "t6").1.st.current_session =
       some ⟨"s1", "/models/new.gguf", "starting", ["10.0.0.2:8181"], "t6"⟩ ∧
     (start_inference_op runningWorld "/models/new.gguf" ["10.0.0.2:8181"]
        true true 9 "s1" "t6").1.st.inference_process = some 9) :=
  ⟨C6_supervisor_engine_session_invariant.1 initWorld SupReachable.init,
   C6_supervisor_engine_session_invariant.2 runningWorld 7
     ⟨"s0", "/models/old.gguf", "starting", [], "2024-01-03T00:00:00Z"⟩
     "/models/new.gguf" ["10.0.0.2:8181"] 9 "s1" "t6" rfl rfl (by decide)⟩

end SharedLLM
